import Mathlib

/-!
Shallow embedding of `src/nixtla/data/tsloader.py` (class `TimeSeriesLoader`)
from the repository Borda/neural-forecast, together with theorems settling the
frozen claims about its specification.

Modelling conventions:
* numpy/torch tensors become nested `List Int` values
  (series tensor: series x channels x time; window tensor: windows x channels x time);
* Python exceptions become `Except LoaderError`;
* the process-wide random number source becomes an explicit stream
  `rng : Nat -> Nat`, one draw per position (`np.random.choice(a, n, replace=True)`
  draws element `a[rng i % a.length]` at step `i`);
* Python negative slice forms `xs[-k:]` and `xs[:-k]` (including the `k = 0`
  corner where `xs[-0:] = xs` and `xs[:-0] = []`) are embedded by
  `sliceFromNeg` / `sliceToNeg`;
* the external Series Store (`TimeSeriesDataset`, not part of the core) is kept
  abstract: its `get_filtered_ts_tensor` answer is a function field of the
  dataset record, per the interface contract in the spec.
-/

namespace Nixtla

/-- Python slice `xs[-k:]`: the last `k` elements; for `k = 0` the whole list
(`-0 == 0`). -/
def sliceFromNeg (k : Nat) (xs : List Int) : List Int :=
  if k = 0 then xs else xs.drop (xs.length - k)

/-- Python slice `xs[:-k]`: all but the last `k` elements; for `k = 0` the empty
list (`xs[:0]`). -/
def sliceToNeg (k : Nat) (xs : List Int) : List Int :=
  if k = 0 then [] else xs.take (xs.length - k)

/-- The external Series Store (`TimeSeriesDataset` from `tsdataset.py`, out of
scope for the core): only the fields/answers the loader consumes. -/
structure TimeSeriesDataset where
  /-- `ts_dataset.ts_tensor`, shape (n_series, n_channels, max_len). -/
  ts_tensor : List (List (List Int))
  /-- `ts_dataset.s_matrix`, shape (n_series, n_static). -/
  s_matrix : List (List Int)
  /-- `ts_dataset.t_cols`: channel names, e.g. `["y", ..., "available_mask", "sample_mask"]`. -/
  t_cols : List String
  /-- Answer of `ts_dataset.get_filtered_ts_tensor(output_size, window_sampling_limit, ts_idxs)`
  (tensor component): external store contract, arguments are output_size,
  window_sampling_limit and the optional series index array. -/
  get_filtered_ts_tensor : Nat → Nat → Option (List Nat) → List (List (List Int))
  /-- `ts_dataset.n_x`: number of exogenous variables. -/
  n_x : Nat
  /-- `ts_dataset.n_s`: number of static variables. -/
  n_s : Nat

/-- Series count `ts_dataset.n_series`. -/
def TimeSeriesDataset.n_series (ds : TimeSeriesDataset) : Nat :=
  ds.ts_tensor.length

/-- Python exceptions raised by the loader, by origin site. -/
inductive LoaderError where
  /-- construction-time `assert` / `raise Exception` on invalid configuration -/
  | configurationError
  /-- empty sampleable-window `assert` in `_get_sampleable_windows_idxs` -/
  | dataError
  /-- `None.repeat` in `_create_windows_tensor` with `index=None` -/
  | attributeError
  /-- `%` or `/` with zero divisor -/
  | zeroDivisionError
  deriving DecidableEq

/-- Constructor arguments of `TimeSeriesLoader.__init__` (minus the dataset). -/
structure LoaderConfig where
  model : String
  window_sampling_limit : Nat
  input_size : Nat
  output_size : Nat
  idx_to_sample_freq : Nat
  batch_size : Nat
  complete_inputs : Bool
  shuffle : Bool
  len_sample_chunks : Option Nat := none
  n_series_per_batch : Option Nat := none
  deriving DecidableEq

/-- Post-`__init__` state of a `TimeSeriesLoader`. -/
structure TimeSeriesLoader where
  ts_dataset : TimeSeriesDataset
  model : String
  window_sampling_limit : Nat
  input_size : Nat
  output_size : Nat
  idx_to_sample_freq : Nat
  batch_size : Nat
  complete_inputs : Bool
  shuffle : Bool
  len_sample_chunks : Nat
  n_series_per_batch : Nat
  windows_size : Nat
  padding : Nat × Nat
  sampleable_ts_idxs : List Nat
  n_sampleable_ts : Nat
  n_batches : Nat

/-- Resolution `self.n_series_per_batch = n_series_per_batch if supplied else min(batch_size, n_series)`. -/
def resolve_n_series_per_batch (ds : TimeSeriesDataset) (cfg : LoaderConfig) : Nat :=
  match cfg.n_series_per_batch with
  | some n => n
  | none => min cfg.batch_size ds.n_series

/-- The `len_sample_chunks` resolution of `__init__` (raises when a supplied
value is below `input_size + output_size`). -/
def resolve_len_sample_chunks (cfg : LoaderConfig) : Except LoaderError Nat :=
  match cfg.len_sample_chunks with
  | some l =>
      if l < cfg.input_size + cfg.output_size then .error .configurationError
      else .ok l
  | none => .ok (cfg.input_size + cfg.output_size)

/-- Method `_define_attributes_by_model`: resolves `(windows_size, padding)`; raises
for an unknown model string. -/
def _define_attributes_by_model (model : String) (input_size output_size len_sample_chunks : Nat) :
    Except LoaderError (Nat × (Nat × Nat)) :=
  if model = "nbeats" then .ok (input_size + output_size, (input_size, output_size))
  else if model = "esrnn" then .ok (len_sample_chunks, (0, 0))
  else .error .configurationError

/-- Value `ts_tensor[i, t_cols.index('sample_mask')].sum()`: the full-series
`sample_mask` sum of one series. -/
def sum_sample_mask (t_cols : List String) (series : List (List Int)) : Int :=
  (series.getD (t_cols.indexOf "sample_mask") []).sum

/-- Method `_define_sampleable_ts_idxs`: indices of series whose total `sample_mask`
sum exceeds `min_mask` (= `windows_size` if `complete_inputs` else
`output_size`), in increasing order (`np.argwhere`). -/
def _define_sampleable_ts_idxs (ds : TimeSeriesDataset) (complete_inputs : Bool)
    (windows_size output_size : Nat) : List Nat :=
  let min_mask : Int := if complete_inputs then (windows_size : Int) else (output_size : Int)
  (List.range ds.n_series).filter
    (fun i => decide (min_mask < sum_sample_mask ds.t_cols (ds.ts_tensor.getD i [])))

/-- Ceiling division `int(np.ceil(a / b))` for natural `a` and positive natural `b`. -/
def ceilDivNat (a b : Nat) : Nat := (a + b - 1) / b

/-- Constructor `TimeSeriesLoader.__init__`, in source order: `len_sample_chunks` check,
the two `assert` protections (where a zero `n_series_per_batch` makes the
modulus itself raise `ZeroDivisionError`), `_define_attributes_by_model`,
`_define_sampleable_ts_idxs`, then `n_batches = int(np.ceil(...))`. -/
def mkTimeSeriesLoader (ds : TimeSeriesDataset) (cfg : LoaderConfig) :
    Except LoaderError TimeSeriesLoader :=
  match resolve_len_sample_chunks cfg with
  | .error e => .error e
  | .ok lsc =>
    if resolve_n_series_per_batch ds cfg = 0 then .error .zeroDivisionError
    else if cfg.batch_size % resolve_n_series_per_batch ds cfg ≠ 0 then .error .configurationError
    else if ds.n_series < resolve_n_series_per_batch ds cfg then .error .configurationError
    else
      match _define_attributes_by_model cfg.model cfg.input_size cfg.output_size lsc with
      | .error e => .error e
      | .ok (ws, pad) =>
        .ok { ts_dataset := ds
              model := cfg.model
              window_sampling_limit := cfg.window_sampling_limit
              input_size := cfg.input_size
              output_size := cfg.output_size
              idx_to_sample_freq := cfg.idx_to_sample_freq
              batch_size := cfg.batch_size
              complete_inputs := cfg.complete_inputs
              shuffle := cfg.shuffle
              len_sample_chunks := lsc
              n_series_per_batch := resolve_n_series_per_batch ds cfg
              windows_size := ws
              padding := pad
              sampleable_ts_idxs :=
                _define_sampleable_ts_idxs ds cfg.complete_inputs ws cfg.output_size
              n_sampleable_ts :=
                (_define_sampleable_ts_idxs ds cfg.complete_inputs ws cfg.output_size).length
              n_batches :=
                ceilDivNat
                  (_define_sampleable_ts_idxs ds cfg.complete_inputs ws cfg.output_size).length
                  (resolve_n_series_per_batch ds cfg) }

/-- Condition `(t.sum(window[sample_mask_row, -output_size:]) == output_size) * 1`
for one flattened window. -/
def sample_condition (L : TimeSeriesLoader) (window : List (List Int)) : Int :=
  if (sliceFromNeg L.output_size
        (window.getD (L.ts_dataset.t_cols.indexOf "sample_mask") [])).sum
      = (L.output_size : Int)
  then 1 else 0

/-- Condition `(t.sum(window[available_mask_row, :-output_size]) == windows_size - output_size) * 1`
for one flattened window (the right-hand side is a Python int difference, so it
may be negative). -/
def available_condition (L : TimeSeriesLoader) (window : List (List Int)) : Int :=
  if (sliceToNeg L.output_size
        (window.getD (L.ts_dataset.t_cols.indexOf "available_mask") [])).sum
      = (L.windows_size : Int) - (L.output_size : Int)
  then 1 else 0

/-- Local `sampling_idx` of `_get_sampleable_windows_idxs`: `t.nonzero` of the
(conjoined) 0/1 condition vectors, flattened to an index list. -/
def sampling_idx_of (L : TimeSeriesLoader)
    (ts_windows_flatten : List (List (List Int))) : List Nat :=
  if L.complete_inputs then
    (List.range ts_windows_flatten.length).filter
      (fun i => decide (0 < available_condition L (ts_windows_flatten.getD i [])
                          * sample_condition L (ts_windows_flatten.getD i [])))
  else
    (List.range ts_windows_flatten.length).filter
      (fun i => decide (sample_condition L (ts_windows_flatten.getD i []) ≠ 0))

/-- Method `_get_sampleable_windows_idxs`: the `sampling_idx` vector guarded by
the non-emptiness `assert`. -/
def _get_sampleable_windows_idxs (L : TimeSeriesLoader)
    (ts_windows_flatten : List (List (List Int))) : Except LoaderError (List Nat) :=
  if (sampling_idx_of L ts_windows_flatten).isEmpty then .error .dataError
  else .ok (sampling_idx_of L ts_windows_flatten)

/-- Padder `t.nn.ConstantPad1d(padding, 0)` applied to one channel row. -/
def padRow (padding : Nat × Nat) (row : List Int) : List Int :=
  List.replicate padding.1 0 ++ row ++ List.replicate padding.2 0

/-- The tensor `_create_windows_tensor` unfolds: the store's filtered tensor,
zero-padded on the time axis by `self.padding`. -/
def padded_filtered_tensor (L : TimeSeriesLoader) (index : Option (List Nat)) :
    List (List (List Int)) :=
  (L.ts_dataset.get_filtered_ts_tensor L.output_size L.window_sampling_limit index).map
    (fun series => series.map (padRow L.padding))

/-- One output frame of `tensor.unfold(-1, W, S)`: the length-`W` slice of a
channel row starting at `j * S`. -/
def unfoldRow (W S j : Nat) (row : List Int) : List Int :=
  (row.drop (j * S)).take W

/-- Number of frames `unfold(-1, W, S)` yields on a time axis of length `T`
(callers must keep `W <= T`; `unfold` itself errors otherwise). -/
def seriesNumWindows (W S T : Nat) : Nat := (T - W) / S + 1

/-- Time-axis length of one series (length of its first channel row). -/
def seriesTimeLen (series : List (List Int)) : Nat := (series.getD 0 []).length

/-- All windows of one series, in increasing start offset, each carrying every
channel (`unfold` then the `permute` that puts time before channel). -/
def _series_windows (W S : Nat) (series : List (List Int)) : List (List (List Int)) :=
  (List.range (seriesNumWindows W S (seriesTimeLen series))).map
    (fun j => series.map (unfoldRow W S j))

/-- Composition `unfold` + `permute` + `reshape(-1, n_channels, windows_size)`: the
flat window list, series-major and time-minor. -/
def windows_flatten (W S : Nat) (tensor : List (List (List Int))) :
    List (List (List Int)) :=
  tensor.flatMap (_series_windows W S)

/-- Method `_create_windows_tensor`: filtered+padded tensor, unfolded into flat
windows; static rows and the series-index vector are `repeat`ed
`windows_per_serie = len(windows) / n_ts` times. With `index=None` the final
`index.repeat(...)` dereferences `None` (`AttributeError`); with an empty
index array `len(windows) / 0` raises `ZeroDivisionError`; an empty dataset in
the `None` branch likewise divides by zero first. -/
def _create_windows_tensor (L : TimeSeriesLoader) (index : Option (List Nat)) :
    Except LoaderError (List (List (List Int)) × List (List Int) × List Nat) :=
  let windows := windows_flatten L.windows_size L.idx_to_sample_freq
                   (padded_filtered_tensor L index)
  match index with
  | none =>
      if L.ts_dataset.n_series = 0 then .error .zeroDivisionError
      else .error .attributeError
  | some idx =>
      if idx.length = 0 then .error .zeroDivisionError
      else
        let windows_per_serie := windows.length / idx.length
        let s_matrix :=
          (idx.map (fun i => L.ts_dataset.s_matrix.getD i [])).flatMap
            (List.replicate windows_per_serie)
        let ts_idxs := idx.flatMap (List.replicate windows_per_serie)
        .ok (windows, s_matrix, ts_idxs)

/-- One produced batch. -/
structure Batch where
  S : List (List Int)
  Y : List (List Int)
  X : List (List (List Int))
  available_mask : List (List Int)
  sample_mask : List (List Int)
  idxs : List Nat
  deriving DecidableEq

/-- Sampler `np.random.choice(a, size, replace=True)` under the explicit rng-stream
model: draw `i` picks `a[rng i % len(a)]` (callers guarantee `a` nonempty). -/
def np_random_choice_replace (rng : Nat → Nat) (a : List Nat) (size : Nat) : List Nat :=
  (List.range size).map (fun i => a.getD (rng i % a.length) 0)

/-- Batch window-index selection of `_windows_batch`: a with-replacement draw
of `batch_size` positions when shuffling, the eligible set verbatim otherwise. -/
def windows_idxs_of (L : TimeSeriesLoader) (rng : Nat → Nat) (sampleable : List Nat) : List Nat :=
  if L.shuffle then np_random_choice_replace rng sampleable L.batch_size else sampleable

/-- Method `_windows_batch`: windows for the requested series, eligible-window
filter, batch-index selection (`np.random.choice` with replacement when
`shuffle`, the eligible set verbatim otherwise), then the channel-wise parse
into `S, Y, X, available_mask, sample_mask, idxs`. -/
def _windows_batch (L : TimeSeriesLoader) (rng : Nat → Nat) (index : List Nat) :
    Except LoaderError Batch :=
  match _create_windows_tensor L (some index) with
  | .error e => .error e
  | .ok (windows, s_matrix, ts_idxs) =>
    match _get_sampleable_windows_idxs L windows with
    | .error e => .error e
    | .ok sampleable_windows =>
      let windows_idxs := windows_idxs_of L rng sampleable_windows
      let gathered := windows_idxs.map (fun i => windows.getD i [])
      let yIdx := L.ts_dataset.t_cols.indexOf "y"
      let availIdx := L.ts_dataset.t_cols.indexOf "available_mask"
      let smIdx := L.ts_dataset.t_cols.indexOf "sample_mask"
      .ok { S := windows_idxs.map (fun i => s_matrix.getD i [])
            Y := gathered.map (fun w => w.getD yIdx [])
            X := gathered.map (fun w => (w.drop (yIdx + 1)).take (availIdx - (yIdx + 1)))
            available_mask := gathered.map (fun w => w.getD availIdx [])
            sample_mask := gathered.map (fun w => w.getD smIdx [])
            idxs := windows_idxs.map (fun i => ts_idxs.getD i 0) }

/-- Indexing `__getitem__`: `self._windows_batch(index=np.array(index))`. -/
def getItem (L : TimeSeriesLoader) (rng : Nat → Nat) (index : List Nat) :
    Except LoaderError Batch :=
  _windows_batch L rng index

/-- Sampler `np.random.choice(a, size=n, replace=False)` under the rng-stream model:
repeatedly remove the rng-chosen remaining element. With `n = 0` it returns the
empty draw even on an empty population (numpy >= 1.17: "unless no samples are
taken"). -/
def np_random_choice_no_replace (rng : Nat → Nat) : Nat → List Nat → List Nat
  | 0, _ => []
  | n + 1, pool =>
      if pool.isEmpty then []
      else
        let j := rng (n + 1) % pool.length
        pool.getD j 0 :: np_random_choice_no_replace rng n (pool.eraseIdx j)

/-- The series ordering one `__iter__` pass uses: a no-replacement permutation
draw when `shuffle`, else `np.array(self.sampleable_ts_idxs)` as stored. -/
def epochSeriesIdxs (L : TimeSeriesLoader) (rng : Nat → Nat) : List Nat :=
  if L.shuffle then np_random_choice_no_replace rng L.n_sampleable_ts L.sampleable_ts_idxs
  else L.sampleable_ts_idxs

/-- Slice `sample_idxs[idx * n_series_per_batch : (idx + 1) * n_series_per_batch]`. -/
def epochChunk (n_series_per_batch : Nat) (sample_idxs : List Nat) (idx : Nat) : List Nat :=
  (sample_idxs.drop (idx * n_series_per_batch)).take n_series_per_batch

/-- Loop `for idx in range(n_batches)` of `__iter__`, run from loop index
`idx` for `fuel` more iterations; the whole pass fails on the first failing
batch. `rngW` gives each iteration its own window-sampling draw stream. -/
def iterFrom (L : TimeSeriesLoader) (rngW : Nat → Nat → Nat) (sample_idxs : List Nat) :
    Nat → Nat → Except LoaderError (List Batch)
  | _, 0 => .ok []
  | idx, fuel + 1 =>
      match _windows_batch L (rngW idx) (epochChunk L.n_series_per_batch sample_idxs idx) with
      | .error e => .error e
      | .ok b =>
          match iterFrom L rngW sample_idxs (idx + 1) fuel with
          | .error e => .error e
          | .ok bs => .ok (b :: bs)

/-- Iterator `__iter__`: one full epoch pass, as the list of produced batches. -/
def iterPass (L : TimeSeriesLoader) (rng : Nat → Nat) (rngW : Nat → Nat → Nat) :
    Except LoaderError (List Batch) :=
  iterFrom L rngW (epochSeriesIdxs L rng) 0 L.n_batches

/-- Accessor `get_n_variables`. -/
def get_n_variables (L : TimeSeriesLoader) : Nat × Nat :=
  (L.ts_dataset.n_x, L.ts_dataset.n_s)

/-! Named components of the `_create_windows_tensor` result on an explicit
index array (the triple it returns when it does not raise). -/

/-- Window component of `_create_windows_tensor(index)`. -/
def created_windows (L : TimeSeriesLoader) (index : List Nat) : List (List (List Int)) :=
  windows_flatten L.windows_size L.idx_to_sample_freq (padded_filtered_tensor L (some index))

/-- Static-matrix component of `_create_windows_tensor(index)`. -/
def created_s_matrix (L : TimeSeriesLoader) (index : List Nat) : List (List Int) :=
  (index.map (fun i => L.ts_dataset.s_matrix.getD i [])).flatMap
    (List.replicate ((created_windows L index).length / index.length))

/-- Series-index component of `_create_windows_tensor(index)`. -/
def created_ts_idxs (L : TimeSeriesLoader) (index : List Nat) : List Nat :=
  index.flatMap (List.replicate ((created_windows L index).length / index.length))


/-! Concrete data used by the witness theorems: a three-series store with
channels `y`, `available_mask`, `sample_mask`, series length 6, per-series
`sample_mask` sums 6, 5 and 2. -/

/-- Concrete series tensor: four series, three channels, six time steps; the
fourth series has an all-zero `sample_mask`. -/
def tsTensor0 : List (List (List Int)) :=
  [[[1, 2, 3, 4, 5, 6], [1, 1, 1, 1, 1, 1], [1, 1, 1, 1, 1, 1]],
   [[10, 20, 30, 40, 50, 60], [1, 1, 1, 1, 0, 0], [1, 1, 1, 1, 1, 0]],
   [[7, 7, 7, 7, 7, 7], [1, 1, 1, 1, 1, 1], [1, 1, 0, 0, 0, 0]],
   [[0, 0, 0, 0, 0, 0], [0, 0, 0, 0, 0, 0], [0, 0, 0, 0, 0, 0]]]

/-- Concrete Series Store over `tsTensor0`; its filtered-tensor answer selects
the requested series unchanged (window_sampling_limit 6 covers everything). -/
def ds0 : TimeSeriesDataset :=
  { ts_tensor := tsTensor0
    s_matrix := [[100], [200], [300], [400]]
    t_cols := ["y", "available_mask", "sample_mask"]
    get_filtered_ts_tensor := fun _ _ idx =>
      match idx with
      | some l => l.map (fun i => tsTensor0.getD i [])
      | none => tsTensor0
    n_x := 0
    n_s := 1 }

/-- Valid nbeats configuration: windows_size 3, padding (2, 1), threshold 1. -/
def cfgA : LoaderConfig :=
  { model := "nbeats", window_sampling_limit := 6, input_size := 2, output_size := 1,
    idx_to_sample_freq := 1, batch_size := 2, complete_inputs := false, shuffle := false,
    n_series_per_batch := some 1 }

/-- Valid nbeats configuration with two series per batch (odd sampleable count,
so the last epoch chunk is smaller). -/
def cfgB : LoaderConfig :=
  { model := "nbeats", window_sampling_limit := 6, input_size := 2, output_size := 1,
    idx_to_sample_freq := 1, batch_size := 2, complete_inputs := false, shuffle := false,
    n_series_per_batch := some 2 }

/-- The configuration `cfgB` with shuffling enabled. -/
def cfgE : LoaderConfig :=
  { model := "nbeats", window_sampling_limit := 6, input_size := 2, output_size := 1,
    idx_to_sample_freq := 1, batch_size := 2, complete_inputs := false, shuffle := true,
    n_series_per_batch := some 2 }

/-- Valid esrnn configuration whose windows_size 7 exceeds every series'
`sample_mask` sum, leaving no sampleable series; shuffling enabled. -/
def cfgC : LoaderConfig :=
  { model := "esrnn", window_sampling_limit := 6, input_size := 2, output_size := 1,
    idx_to_sample_freq := 1, batch_size := 2, complete_inputs := true, shuffle := true,
    len_sample_chunks := some 7, n_series_per_batch := some 1 }

/-- Valid nbeats configuration with `complete_inputs` (threshold windows_size 3,
so the third series with sum 2 is excluded). -/
def cfgD : LoaderConfig :=
  { model := "nbeats", window_sampling_limit := 6, input_size := 2, output_size := 1,
    idx_to_sample_freq := 1, batch_size := 2, complete_inputs := true, shuffle := false,
    n_series_per_batch := some 1 }

/-- Configuration with `batch_size = 0` and no explicit `n_series_per_batch`:
the resolved per-batch series count is `min(0, 3) = 0` and the divisibility
assert divides by zero. All four conditions of claim C6 are absent here. -/
def cfgZero : LoaderConfig :=
  { model := "nbeats", window_sampling_limit := 6, input_size := 2, output_size := 1,
    idx_to_sample_freq := 1, batch_size := 0, complete_inputs := false, shuffle := false }

/-- Configuration whose model string is unknown. -/
def cfgBadModel : LoaderConfig :=
  { model := "rnn", window_sampling_limit := 6, input_size := 2, output_size := 1,
    idx_to_sample_freq := 1, batch_size := 2, complete_inputs := false, shuffle := false,
    n_series_per_batch := some 1 }

/-- Loader state produced by `mkTimeSeriesLoader ds0 cfgA` (shuffle off). -/
def L0 : TimeSeriesLoader :=
  { ts_dataset := ds0, model := "nbeats", window_sampling_limit := 6, input_size := 2,
    output_size := 1, idx_to_sample_freq := 1, batch_size := 2, complete_inputs := false,
    shuffle := false, len_sample_chunks := 3, n_series_per_batch := 1, windows_size := 3,
    padding := (2, 1), sampleable_ts_idxs := [0, 1, 2], n_sampleable_ts := 3, n_batches := 3 }

/-- Shuffling loader state whose `batch_size` 20 exceeds any eligible-window
count of `ds0` (at most 7 windows per series). -/
def L0big : TimeSeriesLoader :=
  { ts_dataset := ds0, model := "nbeats", window_sampling_limit := 6, input_size := 2,
    output_size := 1, idx_to_sample_freq := 1, batch_size := 20, complete_inputs := false,
    shuffle := true, len_sample_chunks := 3, n_series_per_batch := 1, windows_size := 3,
    padding := (2, 1), sampleable_ts_idxs := [0, 1, 2], n_sampleable_ts := 3, n_batches := 3 }

/-- Loader state produced by `mkTimeSeriesLoader ds0 cfgB`. -/
def LB : TimeSeriesLoader :=
  { ts_dataset := ds0, model := "nbeats", window_sampling_limit := 6, input_size := 2,
    output_size := 1, idx_to_sample_freq := 1, batch_size := 2, complete_inputs := false,
    shuffle := false, len_sample_chunks := 3, n_series_per_batch := 2, windows_size := 3,
    padding := (2, 1), sampleable_ts_idxs := [0, 1, 2], n_sampleable_ts := 3, n_batches := 2 }

/-- Loader state produced by `mkTimeSeriesLoader ds0 cfgE` (shuffle on). -/
def LE : TimeSeriesLoader :=
  { ts_dataset := ds0, model := "nbeats", window_sampling_limit := 6, input_size := 2,
    output_size := 1, idx_to_sample_freq := 1, batch_size := 2, complete_inputs := false,
    shuffle := true, len_sample_chunks := 3, n_series_per_batch := 2, windows_size := 3,
    padding := (2, 1), sampleable_ts_idxs := [0, 1, 2], n_sampleable_ts := 3, n_batches := 2 }

/-- Loader state produced by `mkTimeSeriesLoader ds0 cfgC`: no sampleable series. -/
def LC : TimeSeriesLoader :=
  { ts_dataset := ds0, model := "esrnn", window_sampling_limit := 6, input_size := 2,
    output_size := 1, idx_to_sample_freq := 1, batch_size := 2, complete_inputs := true,
    shuffle := true, len_sample_chunks := 7, n_series_per_batch := 1, windows_size := 7,
    padding := (0, 0), sampleable_ts_idxs := [], n_sampleable_ts := 0, n_batches := 0 }

/-- Loader state produced by `mkTimeSeriesLoader ds0 cfgD`. -/
def LD : TimeSeriesLoader :=
  { ts_dataset := ds0, model := "nbeats", window_sampling_limit := 6, input_size := 2,
    output_size := 1, idx_to_sample_freq := 1, batch_size := 2, complete_inputs := true,
    shuffle := false, len_sample_chunks := 3, n_series_per_batch := 1, windows_size := 3,
    padding := (2, 1), sampleable_ts_idxs := [0, 1], n_sampleable_ts := 2, n_batches := 2 }

/-- Concrete flattened window tensor (two windows, three channels, width 3):
window 0 has an unmasked final target step, window 1 does not. -/
def ws0 : List (List (List Int)) :=
  [[[1, 2, 3], [1, 1, 1], [0, 1, 1]],
   [[4, 5, 6], [1, 1, 1], [1, 1, 0]]]

/-! Helper lemmas. -/

lemma getD_replicate_of_lt {α : Type _} (b d : α) {k j : Nat} (hj : j < k) :
    (List.replicate k b).getD j d = b := by
  rw [List.getD_eq_getElem _ _ (by simpa using hj)]
  simp

lemma getD_map_of_lt {α β : Type _} (g : α → β) (l : List α) {i : Nat} (h : i < l.length)
    (d : β) (d0 : α) : (l.map g).getD i d = g (l.getD i d0) := by
  rw [List.getD_eq_getElem _ _ (by simpa using h), List.getD_eq_getElem _ _ h]
  simp

lemma getD_range_map {β : Type _} (g : Nat → β) {n j : Nat} (hj : j < n) (d : β) :
    ((List.range n).map g).getD j d = g j := by
  rw [getD_map_of_lt g _ (by simpa using hj) d 0,
    List.getD_eq_getElem _ _ (by simpa using hj)]
  simp

lemma length_flatMap_const {α β : Type _} (f : α → List β) (k : Nat) :
    ∀ l : List α, (∀ a ∈ l, (f a).length = k) → (l.flatMap f).length = l.length * k := by
  intro l
  induction l with
  | nil => simp
  | cons a t ih =>
      intro h
      rw [List.flatMap_cons, List.length_append,
        ih (fun x hx => h x (List.mem_cons_of_mem a hx)), h a (List.mem_cons_self a t),
        List.length_cons]
      ring

lemma getD_flatMap_const {α β : Type _} (f : α → List β) (k : Nat) (d : β) (a0 : α) :
    ∀ (l : List α) (i j : Nat), (∀ a ∈ l, (f a).length = k) → i < l.length → j < k →
      (l.flatMap f).getD (i * k + j) d = (f (l.getD i a0)).getD j d := by
  intro l
  induction l with
  | nil => intro i j _ hi _; simp at hi
  | cons a t ih =>
      intro i j h hi hj
      have hlen : (f a).length = k := h a (List.mem_cons_self a t)
      rw [List.flatMap_cons]
      cases i with
      | zero =>
          rw [Nat.zero_mul, Nat.zero_add, List.getD_append _ _ _ _ (by omega)]
          rfl
      | succ n =>
          rw [List.getD_append_right _ _ _ _ (by rw [hlen, Nat.succ_mul]; omega),
            show (n + 1) * k + j - (f a).length = n * k + j by rw [hlen, Nat.succ_mul]; omega]
          have := ih n j (fun x hx => h x (List.mem_cons_of_mem a hx))
            (by simpa using Nat.lt_of_succ_lt_succ hi) hj
          simpa using this

lemma mkLoader_ok_fields {ds : TimeSeriesDataset} {cfg : LoaderConfig} {L : TimeSeriesLoader}
    (h : mkTimeSeriesLoader ds cfg = .ok L) :
    L.ts_dataset = ds ∧ L.complete_inputs = cfg.complete_inputs ∧
    L.output_size = cfg.output_size ∧ L.shuffle = cfg.shuffle ∧
    L.batch_size = cfg.batch_size ∧
    L.n_series_per_batch = resolve_n_series_per_batch ds cfg ∧
    0 < L.n_series_per_batch ∧
    L.sampleable_ts_idxs =
      _define_sampleable_ts_idxs ds cfg.complete_inputs L.windows_size cfg.output_size ∧
    L.n_sampleable_ts = L.sampleable_ts_idxs.length ∧
    L.n_batches = ceilDivNat L.n_sampleable_ts L.n_series_per_batch := by
  unfold mkTimeSeriesLoader at h
  split at h
  · cases h
  · split at h
    · cases h
    · split at h
      · cases h
      · split at h
        · cases h
        · split at h
          · cases h
          · cases h
            refine ⟨rfl, rfl, rfl, rfl, rfl, rfl,
              Nat.pos_of_ne_zero (by assumption), rfl, rfl, rfl⟩

/-! Claim theorems. -/

/-- C8: on a fixed loader state and explicit series subset, the indexing
operation is a pure function of the random stream, so two calls in the same
seeded random state return identical batches; with `shuffle=false` the result
does not depend on the random source at all. -/
theorem C8_getitem_deterministic (L : TimeSeriesLoader) (index : List Nat)
    (rng1 rng2 : Nat → Nat) :
    getItem L rng1 index = getItem L rng1 index ∧
    (L.shuffle = false → getItem L rng1 index = getItem L rng2 index) := by
  refine ⟨rfl, fun hsh => ?_⟩
  unfold getItem _windows_batch
  cases _create_windows_tensor L (some index) with
  | error e => rfl
  | ok trip =>
      obtain ⟨w, sm, ti⟩ := trip
      dsimp only
      cases _get_sampleable_windows_idxs L w with
      | error e => rfl
      | ok s => simp [windows_idxs_of, hsh]

/-- Witness for C8: the shuffle-off loader `L0` yields the same batch under
two different random streams. -/
theorem C8_getitem_deterministic_witness :
    getItem L0 (fun i => i) [0, 1] = getItem L0 (fun i => 7 * i + 3) [0, 1] :=
  (C8_getitem_deterministic L0 [0, 1] (fun i => i) (fun i => 7 * i + 3)).2 rfl

/-- C9: `_create_windows_tensor` with its documented default `index=None`
never returns a window tensor; on any non-empty dataset it fails with the
`AttributeError` from `None.repeat` when repeating the series-index vector. -/
theorem C9_create_windows_none_fails (L : TimeSeriesLoader) :
    (∀ w sm ti, _create_windows_tensor L none ≠ .ok (w, sm, ti)) ∧
    (0 < L.ts_dataset.n_series → _create_windows_tensor L none = .error .attributeError) := by
  constructor
  · intro w sm ti hcontra
    by_cases hz : L.ts_dataset.n_series = 0 <;>
      simp [_create_windows_tensor, hz] at hcontra
  · intro hpos
    have hz : ¬ L.ts_dataset.n_series = 0 := by omega
    simp [_create_windows_tensor, hz]

/-- Witness for C9: on `L0` (three series) the `None` call fails with the
attribute error. -/
theorem C9_create_windows_none_fails_witness :
    _create_windows_tensor L0 none = .error .attributeError :=
  (C9_create_windows_none_fails L0).2 (by decide)

/-- C10: a successfully constructed loader with an empty sampleable-series set
has `n_batches = 0`, and a full iteration pass yields zero batches and raises
no error, regardless of the random streams. -/
theorem C10_empty_sampleable_iteration (ds : TimeSeriesDataset) (cfg : LoaderConfig)
    (L : TimeSeriesLoader) (hok : mkTimeSeriesLoader ds cfg = .ok L)
    (hempty : L.n_sampleable_ts = 0) :
    L.n_batches = 0 ∧ ∀ rng rngW, iterPass L rng rngW = .ok [] := by
  obtain ⟨-, -, -, -, -, -, hpos, -, -, hnb⟩ := mkLoader_ok_fields hok
  have h0 : L.n_batches = 0 := by
    rw [hnb, hempty]
    unfold ceilDivNat
    exact Nat.div_eq_of_lt (by omega)
  refine ⟨h0, fun rng rngW => ?_⟩
  unfold iterPass
  rw [h0]
  rfl

/-- Witness for C10: `cfgC` admits no sampleable series of `ds0`, yet
construction succeeds (`LC`), `n_batches` is zero and the pass is empty. -/
theorem C10_empty_sampleable_iteration_witness :
    mkTimeSeriesLoader ds0 cfgC = .ok LC ∧ LC.n_batches = 0 ∧
      iterPass LC (fun i => i) (fun _ i => i) = .ok [] :=
  ⟨rfl, (C10_empty_sampleable_iteration ds0 cfgC LC rfl rfl).1,
    (C10_empty_sampleable_iteration ds0 cfgC LC rfl rfl).2 (fun i => i) (fun _ i => i)⟩

/-- C2: at construction, a series index is in `sampleable_ts_idxs` iff its
full-series `sample_mask` sum strictly exceeds the threshold (`windows_size`
when `complete_inputs`, else `output_size`); a series with sum at most the
threshold never appears. -/
theorem C2_series_level_eligibility (ds : TimeSeriesDataset) (cfg : LoaderConfig)
    (L : TimeSeriesLoader) (hok : mkTimeSeriesLoader ds cfg = .ok L) (i : Nat) :
    (i ∈ L.sampleable_ts_idxs ↔
      i < ds.n_series ∧
        (if L.complete_inputs then (L.windows_size : Int) else (L.output_size : Int)) <
          ((ds.ts_tensor.getD i []).getD (ds.t_cols.indexOf "sample_mask") []).sum) ∧
    (((ds.ts_tensor.getD i []).getD (ds.t_cols.indexOf "sample_mask") []).sum ≤
        (if L.complete_inputs then (L.windows_size : Int) else (L.output_size : Int)) →
      i ∉ L.sampleable_ts_idxs) := by
  obtain ⟨-, hci, hout, -, -, -, -, hsamp, -, -⟩ := mkLoader_ok_fields hok
  have hiff : i ∈ L.sampleable_ts_idxs ↔
      i < ds.n_series ∧
        (if L.complete_inputs then (L.windows_size : Int) else (L.output_size : Int)) <
          ((ds.ts_tensor.getD i []).getD (ds.t_cols.indexOf "sample_mask") []).sum := by
    rw [hsamp]
    unfold _define_sampleable_ts_idxs sum_sample_mask
    rw [hci, hout] at *
    simp [List.mem_filter, List.mem_range]
  refine ⟨hiff, fun hle hmem => ?_⟩
  exact absurd (hiff.mp hmem).2 (not_lt.mpr hle)

/-- Witness for C2: with `cfgD` (complete inputs, threshold 3) series 2 of
`ds0` (mask sum 2) is excluded while series 0 (mask sum 6) is included. -/
theorem C2_series_level_eligibility_witness :
    (2 : Nat) ∉ LD.sampleable_ts_idxs ∧ (0 : Nat) ∈ LD.sampleable_ts_idxs :=
  ⟨(C2_series_level_eligibility ds0 cfgD LD rfl 2).2 (by decide),
    ((C2_series_level_eligibility ds0 cfgD LD rfl 0).1).mpr (by constructor <;> decide)⟩

lemma create_windows_some_ok (L : TimeSeriesLoader) (index : List Nat) (hne : index ≠ []) :
    _create_windows_tensor L (some index) =
      .ok (created_windows L index, created_s_matrix L index, created_ts_idxs L index) := by
  have hz : ¬ index.length = 0 := fun hc => hne (List.length_eq_zero.mp hc)
  simp [_create_windows_tensor, hz, created_windows, created_s_matrix, created_ts_idxs]

lemma get_sampleable_ok_inv {L : TimeSeriesLoader} {ws : List (List (List Int))}
    {idxs : List Nat} (h : _get_sampleable_windows_idxs L ws = .ok idxs) :
    idxs = sampling_idx_of L ws ∧ sampling_idx_of L ws ≠ [] := by
  unfold _get_sampleable_windows_idxs at h
  split at h
  · cases h
  · next hemp =>
      refine ⟨(Except.ok.inj h).symm, fun hc => hemp (by simp [hc])⟩

lemma windows_batch_ok_eq (L : TimeSeriesLoader) (rng : Nat → Nat) (index : List Nat)
    (sampleable : List Nat) (hne : index ≠ [])
    (hs : _get_sampleable_windows_idxs L (created_windows L index) = .ok sampleable) :
    _windows_batch L rng index = .ok
      { S := (windows_idxs_of L rng sampleable).map
              (fun i => (created_s_matrix L index).getD i [])
        Y := (windows_idxs_of L rng sampleable).map
              (fun i => ((created_windows L index).getD i []).getD
                (L.ts_dataset.t_cols.indexOf "y") [])
        X := (windows_idxs_of L rng sampleable).map
              (fun i => (((created_windows L index).getD i []).drop
                  (L.ts_dataset.t_cols.indexOf "y" + 1)).take
                (L.ts_dataset.t_cols.indexOf "available_mask"
                  - (L.ts_dataset.t_cols.indexOf "y" + 1)))
        available_mask := (windows_idxs_of L rng sampleable).map
              (fun i => ((created_windows L index).getD i []).getD
                (L.ts_dataset.t_cols.indexOf "available_mask") [])
        sample_mask := (windows_idxs_of L rng sampleable).map
              (fun i => ((created_windows L index).getD i []).getD
                (L.ts_dataset.t_cols.indexOf "sample_mask") [])
        idxs := (windows_idxs_of L rng sampleable).map
              (fun i => (created_ts_idxs L index).getD i 0) } := by
  unfold _windows_batch
  rw [create_windows_some_ok L index hne]
  dsimp only
  rw [hs]
  dsimp only
  simp only [List.map_map]
  rfl

lemma windows_batch_cases (L : TimeSeriesLoader) (rng : Nat → Nat) (index : List Nat)
    (hne : index ≠ []) :
    (sampling_idx_of L (created_windows L index) = [] ∧
      _windows_batch L rng index = .error .dataError) ∨
    (sampling_idx_of L (created_windows L index) ≠ [] ∧
      ∃ b, _windows_batch L rng index = .ok b) := by
  by_cases he : (sampling_idx_of L (created_windows L index)).isEmpty
  · left
    refine ⟨List.isEmpty_iff.mp he, ?_⟩
    unfold _windows_batch
    rw [create_windows_some_ok L index hne]
    dsimp only
    unfold _get_sampleable_windows_idxs
    rw [if_pos he]
  · right
    refine ⟨fun hc => he (by simp [hc]), ?_⟩
    refine ⟨_, windows_batch_ok_eq L rng index
      (sampling_idx_of L (created_windows L index)) hne ?_⟩
    unfold _get_sampleable_windows_idxs
    rw [if_neg he]

/-- C7: on an explicit non-empty series subset, a batch-production call fails
with the DataError iff the eligible-window set for that subset is empty; no
other error can arise, and whether the call errors does not depend on the
random stream (the guard runs before any sampling; the loader state itself is
immutable in this embedding). -/
theorem C7_dataerror_iff_empty_eligible (L : TimeSeriesLoader) (rng : Nat → Nat)
    (index : List Nat) (hne : index ≠ []) :
    (∀ e, _windows_batch L rng index = .error e → e = .dataError) ∧
    (_windows_batch L rng index = .error .dataError ↔
      sampling_idx_of L (created_windows L index) = []) ∧
    (∀ rng2, (_windows_batch L rng index = .error .dataError ↔
      _windows_batch L rng2 index = .error .dataError)) := by
  rcases windows_batch_cases L rng index hne with ⟨hemp, herr⟩ | ⟨hne2, b, hb⟩
  · refine ⟨fun e he => ?_, ⟨fun _ => hemp, fun _ => herr⟩, fun rng2 => ?_⟩
    · rw [herr] at he
      exact (Except.error.inj he).symm
    · rcases windows_batch_cases L rng2 index hne with ⟨-, herr2⟩ | ⟨hne2, -⟩
      · exact ⟨fun _ => herr2, fun _ => herr⟩
      · exact absurd hemp hne2
  · refine ⟨fun e he => ?_, ?_, fun rng2 => ?_⟩
    · rw [hb] at he
      cases he
    · constructor
      · intro hc
        rw [hb] at hc
        cases hc
      · intro hc
        exact absurd hc hne2
    · rcases windows_batch_cases L rng2 index hne with ⟨hemp2, -⟩ | ⟨-, b2, hb2⟩
      · exact absurd hemp2 hne2
      · constructor
        · intro hc; rw [hb] at hc; cases hc
        · intro hc; rw [hb2] at hc; cases hc

/-- Witness for C7: for `L0` and series 3 (all-zero sample mask, so no window
passes the leakage guard) the call fails with the DataError; for series 0 the
eligible set is non-empty and no DataError arises. -/
theorem C7_dataerror_iff_empty_eligible_witness :
    _windows_batch L0 (fun i => i) [3] = .error .dataError ∧
      ¬ _windows_batch L0 (fun i => i) [0] = .error .dataError :=
  ⟨((C7_dataerror_iff_empty_eligible L0 (fun i => i) [3] (by decide)).2.1).mpr (by decide),
    fun hc =>
      absurd (((C7_dataerror_iff_empty_eligible L0 (fun i => i) [0] (by decide)).2.1).mp hc)
        (by decide)⟩

/-- C3: once windows exist and the eligible set is non-empty, batch production
succeeds for every random stream (in particular even when `batch_size` exceeds
the eligible count, since the draw is with replacement); with `shuffle` on,
every batch field has exactly `batch_size` entries and every drawn window index
lies in the eligible set; with `shuffle` off, the selection is the eligible set
verbatim, in order, and the batch size is its count. -/
theorem C3_batch_sampling (L : TimeSeriesLoader) (rng : Nat → Nat) (index : List Nat)
    (sampleable : List Nat) (hne : index ≠ [])
    (hs : _get_sampleable_windows_idxs L (created_windows L index) = .ok sampleable) :
    (∃ b, _windows_batch L rng index = .ok b) ∧
    (∀ b, _windows_batch L rng index = .ok b →
      (L.shuffle = true →
        b.S.length = L.batch_size ∧ b.Y.length = L.batch_size ∧
        b.X.length = L.batch_size ∧ b.available_mask.length = L.batch_size ∧
        b.sample_mask.length = L.batch_size ∧ b.idxs.length = L.batch_size ∧
        ∀ j ∈ np_random_choice_replace rng sampleable L.batch_size, j ∈ sampleable) ∧
      (L.shuffle = false →
        windows_idxs_of L rng sampleable = sampleable ∧
        b.S.length = sampleable.length ∧ b.Y.length = sampleable.length ∧
        b.idxs = sampleable.map (fun i => (created_ts_idxs L index).getD i 0) ∧
        b.Y = sampleable.map (fun i =>
          ((created_windows L index).getD i []).getD
            (L.ts_dataset.t_cols.indexOf "y") []))) := by
  have hb := windows_batch_ok_eq L rng index sampleable hne hs
  have hnonempty : sampleable ≠ [] := by
    obtain ⟨heq, hne2⟩ := get_sampleable_ok_inv hs
    rw [heq]
    exact hne2
  refine ⟨⟨_, hb⟩, fun b hbeq => ?_⟩
  rw [hb] at hbeq
  obtain rfl : _ = b := Except.ok.inj hbeq
  constructor
  · intro hsh
    have hsel : windows_idxs_of L rng sampleable =
        np_random_choice_replace rng sampleable L.batch_size := by
      unfold windows_idxs_of
      rw [hsh]
      simp
    have hlen : (windows_idxs_of L rng sampleable).length = L.batch_size := by
      rw [hsel]
      unfold np_random_choice_replace
      simp
    refine ⟨by simpa using hlen, by simpa using hlen, by simpa using hlen,
      by simpa using hlen, by simpa using hlen, by simpa using hlen, fun j hj => ?_⟩
    unfold np_random_choice_replace at hj
    simp only [List.mem_map, List.mem_range] at hj
    obtain ⟨i, -, rfl⟩ := hj
    have hpos : 0 < sampleable.length := List.length_pos.mpr hnonempty
    have hlt : rng i % sampleable.length < sampleable.length := Nat.mod_lt _ hpos
    rw [List.getD_eq_getElem _ _ hlt]
    exact List.getElem_mem hlt
  · intro hsh
    have hsel : windows_idxs_of L rng sampleable = sampleable := by
      unfold windows_idxs_of
      rw [hsh]
      simp
    refine ⟨hsel, by simp [hsel], by simp [hsel], by simp [hsel], by simp [hsel]⟩

/-- Witness for C3: for `L0big` (shuffle on, `batch_size` 20) and series 0 the
eligible set has only 6 windows, yet the batch succeeds with 20 windows; for
`L0` (shuffle off) the batch carries the 6 eligible windows verbatim. -/
theorem C3_batch_sampling_witness :
    ((_windows_batch L0big (fun i => i) [0]).toOption.map (fun b => b.Y.length) = some 20) ∧
    ((_windows_batch L0 (fun i => i) [0]).toOption.map (fun b => b.Y.length) = some 6) := by
  constructor
  · obtain ⟨⟨b, hb⟩, hall⟩ :=
      C3_batch_sampling L0big (fun i => i) [0] [0, 1, 2, 3, 4, 5] (by decide) (by rfl)
    obtain ⟨-, hY, -⟩ := (hall b hb).1 rfl
    have hY20 : b.Y.length = 20 := hY
    rw [hb]
    simp [Except.toOption, hY20]
  · obtain ⟨⟨b, hb⟩, hall⟩ :=
      C3_batch_sampling L0 (fun i => i) [0] [0, 1, 2, 3, 4, 5] (by decide) (by rfl)
    obtain ⟨-, -, hY, -⟩ := (hall b hb).2 rfl
    have hY6 : b.Y.length = 6 := hY
    rw [hb]
    simp [Except.toOption, hY6]

lemma getD_mem_of_lt {α : Type _} (l : List α) {i : Nat} (h : i < l.length) (d : α) :
    l.getD i d ∈ l := by
  rw [List.getD_eq_getElem _ _ h]
  exact List.getElem_mem h

lemma row_cases (L : TimeSeriesLoader) (w : List (List Int)) (name : String)
    (hshape : ∀ r ∈ w, r.length = L.windows_size) :
    (w.getD (L.ts_dataset.t_cols.indexOf name) []).length = L.windows_size ∨
      w.getD (L.ts_dataset.t_cols.indexOf name) [] = [] := by
  by_cases hi : L.ts_dataset.t_cols.indexOf name < w.length
  · left
    rw [List.getD_eq_getElem _ _ hi]
    exact hshape _ (List.getElem_mem hi)
  · right
    exact List.getD_eq_default _ _ (le_of_not_lt hi)

lemma sliceFromNeg_of_pos {k : Nat} (hk : 0 < k) (xs : List Int) :
    sliceFromNeg k xs = xs.drop (xs.length - k) := by
  unfold sliceFromNeg
  rw [if_neg (by omega)]

lemma sliceToNeg_of_pos {k : Nat} (hk : 0 < k) (xs : List Int) :
    sliceToNeg k xs = xs.take (xs.length - k) := by
  unfold sliceToNeg
  rw [if_neg (by omega)]

lemma sample_condition_spec (L : TimeSeriesLoader) (w : List (List Int))
    (hout : 0 < L.output_size)
    (hshape : ∀ r ∈ w, r.length = L.windows_size) :
    (sample_condition L w = 1 ↔
      ((w.getD (L.ts_dataset.t_cols.indexOf "sample_mask") []).drop
          (L.windows_size - L.output_size)).sum = (L.output_size : Int)) ∧
    (sample_condition L w = 1 ∨ sample_condition L w = 0) := by
  unfold sample_condition
  rw [sliceFromNeg_of_pos hout]
  rcases row_cases L w "sample_mask" hshape with h | h
  · rw [h]
    constructor
    · split_ifs with hc
      · exact ⟨fun _ => hc, fun _ => rfl⟩
      · exact ⟨fun h01 => absurd h01 (by norm_num), fun hr => absurd hr hc⟩
    · split_ifs
      · exact Or.inl rfl
      · exact Or.inr rfl
  · rw [h]
    simp only [List.drop_nil, List.length_nil, List.sum_nil]
    constructor
    · split_ifs with hc
      · exact ⟨fun _ => hc, fun _ => rfl⟩
      · exact ⟨fun h01 => absurd h01 (by norm_num), fun hr => absurd hr hc⟩
    · split_ifs
      · exact Or.inl rfl
      · exact Or.inr rfl

lemma available_condition_spec (L : TimeSeriesLoader) (w : List (List Int))
    (hout : 0 < L.output_size)
    (hshape : ∀ r ∈ w, r.length = L.windows_size) :
    (available_condition L w = 1 ↔
      ((w.getD (L.ts_dataset.t_cols.indexOf "available_mask") []).take
          (L.windows_size - L.output_size)).sum =
        (L.windows_size : Int) - (L.output_size : Int)) ∧
    (available_condition L w = 1 ∨ available_condition L w = 0) := by
  unfold available_condition
  rw [sliceToNeg_of_pos hout]
  rcases row_cases L w "available_mask" hshape with h | h
  · rw [h]
    constructor
    · split_ifs with hc
      · exact ⟨fun _ => hc, fun _ => rfl⟩
      · exact ⟨fun h01 => absurd h01 (by norm_num), fun hr => absurd hr hc⟩
    · split_ifs
      · exact Or.inl rfl
      · exact Or.inr rfl
  · rw [h]
    simp only [List.take_nil, List.length_nil, List.sum_nil]
    constructor
    · split_ifs with hc
      · exact ⟨fun _ => hc, fun _ => rfl⟩
      · exact ⟨fun h01 => absurd h01 (by norm_num), fun hr => absurd hr hc⟩
    · split_ifs
      · exact Or.inl rfl
      · exact Or.inr rfl

/-- C1: a flattened window is eligible iff its `sample_mask` channel sums to
`output_size` over the last `output_size` steps, and, exactly when
`complete_inputs` is set, additionally its `available_mask` channel sums to
`windows_size - output_size` over the first `windows_size - output_size`
steps. -/
theorem C1_window_level_eligibility (L : TimeSeriesLoader) (ws : List (List (List Int)))
    (idxs : List Nat) (i : Nat) (hout : 0 < L.output_size)
    (hshape : ∀ w ∈ ws, ∀ r ∈ w, r.length = L.windows_size)
    (hok : _get_sampleable_windows_idxs L ws = .ok idxs) :
    i ∈ idxs ↔
      i < ws.length ∧
        (((ws.getD i []).getD (L.ts_dataset.t_cols.indexOf "sample_mask") []).drop
            (L.windows_size - L.output_size)).sum = (L.output_size : Int) ∧
        (L.complete_inputs = true →
          (((ws.getD i []).getD (L.ts_dataset.t_cols.indexOf "available_mask") []).take
              (L.windows_size - L.output_size)).sum =
            (L.windows_size : Int) - (L.output_size : Int)) := by
  obtain ⟨hidxs, -⟩ := get_sampleable_ok_inv hok
  rw [hidxs]
  unfold sampling_idx_of
  by_cases hci : L.complete_inputs
  · rw [if_pos hci]
    simp only [List.mem_filter, List.mem_range, decide_eq_true_eq, hci, forall_const]
    constructor
    · rintro ⟨hi, hcond⟩
      have hwin := hshape _ (getD_mem_of_lt ws hi [])
      have hs := sample_condition_spec L (ws.getD i []) hout hwin
      have ha := available_condition_spec L (ws.getD i []) hout hwin
      refine ⟨hi, ?_, ?_⟩
      · rcases hs.2 with h1 | h0
        · exact hs.1.mp h1
        · rw [h0, mul_zero] at hcond
          exact absurd hcond (by norm_num)
      · rcases ha.2 with h1 | h0
        · exact ha.1.mp h1
        · rw [h0, zero_mul] at hcond
          exact absurd hcond (by norm_num)
    · rintro ⟨hi, hsamp, havail⟩
      have hwin := hshape _ (getD_mem_of_lt ws hi [])
      have hs := (sample_condition_spec L (ws.getD i []) hout hwin).1.mpr hsamp
      have ha := (available_condition_spec L (ws.getD i []) hout hwin).1.mpr havail
      refine ⟨hi, ?_⟩
      rw [hs, ha]
      norm_num
  · rw [if_neg hci]
    simp only [List.mem_filter, List.mem_range, decide_eq_true_eq]
    have hfalse : ¬ (L.complete_inputs = true) := hci
    constructor
    · rintro ⟨hi, hcond⟩
      have hwin := hshape _ (getD_mem_of_lt ws hi [])
      have hs := sample_condition_spec L (ws.getD i []) hout hwin
      refine ⟨hi, ?_, fun hc => absurd hc hfalse⟩
      rcases hs.2 with h1 | h0
      · exact hs.1.mp h1
      · exact absurd h0 hcond
    · rintro ⟨hi, hsamp, -⟩
      have hwin := hshape _ (getD_mem_of_lt ws hi [])
      have hs := (sample_condition_spec L (ws.getD i []) hout hwin).1.mpr hsamp
      refine ⟨hi, ?_⟩
      rw [hs]
      norm_num

/-- Witness for C1: on the two-window tensor `ws0` under `L0`, window 0 (whose
final `sample_mask` step is 1) is eligible and window 1 (final step 0) is not. -/
theorem C1_window_level_eligibility_witness :
    _get_sampleable_windows_idxs L0 ws0 = .ok [0] ∧
    (((ws0.getD 0 []).getD (L0.ts_dataset.t_cols.indexOf "sample_mask") []).drop
        (L0.windows_size - L0.output_size)).sum = (L0.output_size : Int) ∧
    (1 : Nat) ∉ ([0] : List Nat) :=
  ⟨rfl,
    ((C1_window_level_eligibility L0 ws0 [0] 0 (by decide) (by decide) rfl).mp
      (by decide)).2.1,
    fun hmem =>
      absurd ((C1_window_level_eligibility L0 ws0 [0] 1 (by decide) (by decide) rfl).mp
        hmem).2.1 (by decide)⟩

lemma ceilDivNat_succ_drop {n len k : Nat} (hn : 0 < n) (hk : ceilDivNat len n = k + 1) :
    ceilDivNat (len - n) n = k ∧ 1 ≤ len := by
  unfold ceilDivNat at *
  have hlen1 : 1 ≤ len := by
    by_contra hc
    have hz : len = 0 := by omega
    subst hz
    have := Nat.div_eq_of_lt (show 0 + n - 1 < n by omega)
    omega
  rcases le_or_lt len n with hle | hlt
  · have h1 : (len + n - 1) / n = 1 := by
      rw [show len + n - 1 = (len - 1) + n by omega, Nat.add_div_right _ hn,
        Nat.div_eq_of_lt (by omega)]
    have hk0 : k = 0 := by omega
    subst hk0
    rw [show len - n = 0 by omega]
    exact ⟨Nat.div_eq_of_lt (by omega), hlen1⟩
  · have h2 : (len + n - 1) / n = (len - 1) / n + 1 := by
      rw [show len + n - 1 = (len - 1) + n by omega, Nat.add_div_right _ hn]
    refine ⟨?_, hlen1⟩
    rw [show len - n + n - 1 = len - 1 by omega]
    omega

lemma epoch_chunks_flatten (n : Nat) (hn : 0 < n) :
    ∀ (k : Nat) (xs : List Nat), ceilDivNat xs.length n = k →
      ((List.range k).map (epochChunk n xs)).flatten = xs := by
  intro k
  induction k with
  | zero =>
      intro xs hk
      have hlen : xs.length = 0 := by
        unfold ceilDivNat at hk
        have := (Nat.div_eq_zero_iff hn).mp hk
        omega
      rw [List.length_eq_zero.mp hlen]
      simp
  | succ k ih =>
      intro xs hk
      obtain ⟨hk2, hlen1⟩ := ceilDivNat_succ_drop hn hk
      rw [List.range_succ_eq_map, List.map_cons, List.flatten_cons, List.map_map]
      have htail : (List.range k).map (epochChunk n xs ∘ Nat.succ) =
          (List.range k).map (epochChunk n (xs.drop n)) := by
        apply List.map_congr_left
        intro idx _
        unfold epochChunk
        simp only [Function.comp_apply]
        rw [List.drop_drop]
        congr 2
        rw [Nat.succ_mul]
        exact Nat.add_comm _ _
      rw [htail, ih (xs.drop n) (by rw [List.length_drop]; exact hk2)]
      unfold epochChunk
      rw [Nat.zero_mul, List.drop_zero, List.take_append_drop]

lemma iterFrom_ok_length (L : TimeSeriesLoader) (rngW : Nat → Nat → Nat)
    (s : List Nat) : ∀ (fuel idx : Nat) (bs : List Batch),
    iterFrom L rngW s idx fuel = .ok bs → bs.length = fuel := by
  intro fuel
  induction fuel with
  | zero =>
      intro idx bs h
      obtain rfl : [] = bs := Except.ok.inj h
      rfl
  | succ f ih =>
      intro idx bs h
      unfold iterFrom at h
      split at h
      · cases h
      · split at h
        · cases h
        · rename_i bs2 heq
          obtain rfl := Except.ok.inj h
          simp [ih (idx + 1) bs2 heq]

/-- C5: for every successfully constructed loader, regardless of `shuffle`,
`n_batches = ceil(n_sampleable_ts / n_series_per_batch)`; with `shuffle` off
the epoch ordering is exactly the stored sampleable index list, the epoch's
consecutive chunks concatenate back to that list (so each sampleable series is
visited exactly once per pass), and any completed pass yields exactly
`n_batches` batches. Each pass recomputes its ordering from loader state, so
iteration is restartable. -/
theorem C5_epoch_chunking (ds : TimeSeriesDataset) (cfg : LoaderConfig)
    (L : TimeSeriesLoader) (hok : mkTimeSeriesLoader ds cfg = .ok L) :
    L.n_batches = ceilDivNat L.n_sampleable_ts L.n_series_per_batch ∧
    (L.shuffle = false →
      (∀ rng, epochSeriesIdxs L rng = L.sampleable_ts_idxs) ∧
      ((List.range L.n_batches).map
          (epochChunk L.n_series_per_batch L.sampleable_ts_idxs)).flatten
        = L.sampleable_ts_idxs ∧
      (∀ rng rngW bs, iterPass L rng rngW = .ok bs → bs.length = L.n_batches)) := by
  obtain ⟨-, -, -, -, -, -, hpos, -, hcnt, hnb⟩ := mkLoader_ok_fields hok
  refine ⟨hnb, fun hsh => ⟨fun rng => ?_, ?_, fun rng rngW bs h => ?_⟩⟩
  · unfold epochSeriesIdxs
    rw [hsh]
    simp
  · exact epoch_chunks_flatten L.n_series_per_batch hpos L.n_batches
      L.sampleable_ts_idxs (by rw [hnb, hcnt])
  · unfold iterPass at h
    exact iterFrom_ok_length L rngW _ L.n_batches 0 bs h

/-- Witness for C5: `cfgB` (three sampleable series, two per batch, shuffle
off) gives two batches whose chunks `[0, 1]` and `[2]` concatenate to the
sampleable list, and the shuffling variant `cfgE` satisfies the same
`n_batches` ceiling equation. -/
theorem C5_epoch_chunking_witness :
    mkTimeSeriesLoader ds0 cfgB = .ok LB ∧
    LB.n_batches = ceilDivNat LB.n_sampleable_ts LB.n_series_per_batch ∧
    ((List.range LB.n_batches).map
        (epochChunk LB.n_series_per_batch LB.sampleable_ts_idxs)).flatten
      = LB.sampleable_ts_idxs ∧
    mkTimeSeriesLoader ds0 cfgE = .ok LE ∧
    LE.shuffle = true ∧
    LE.n_batches = ceilDivNat LE.n_sampleable_ts LE.n_series_per_batch :=
  ⟨rfl, (C5_epoch_chunking ds0 cfgB LB rfl).1,
    ((C5_epoch_chunking ds0 cfgB LB rfl).2 rfl).2.1,
    rfl, rfl, (C5_epoch_chunking ds0 cfgE LE rfl).1⟩

lemma resolve_lsc_cases (cfg : LoaderConfig) :
    (resolve_len_sample_chunks cfg = .error .configurationError ∧
      ∃ l, cfg.len_sample_chunks = some l ∧ l < cfg.input_size + cfg.output_size) ∨
    ((∃ lv, resolve_len_sample_chunks cfg = .ok lv) ∧
      ¬ ∃ l, cfg.len_sample_chunks = some l ∧ l < cfg.input_size + cfg.output_size) := by
  unfold resolve_len_sample_chunks
  cases h : cfg.len_sample_chunks with
  | none =>
      right
      refine ⟨⟨_, rfl⟩, ?_⟩
      rintro ⟨l, hl, -⟩
      cases hl
  | some l =>
      dsimp only
      by_cases hcond : l < cfg.input_size + cfg.output_size
      · left
        exact ⟨by rw [if_pos hcond], l, rfl, hcond⟩
      · right
        refine ⟨⟨l, by rw [if_neg hcond]⟩, ?_⟩
        rintro ⟨l2, hl2, hc2⟩
        obtain rfl := Option.some.inj hl2
        exact hcond hc2

lemma define_attributes_cases (model : String) (i o l : Nat) :
    (model = "nbeats" ∧
      _define_attributes_by_model model i o l = .ok (i + o, (i, o))) ∨
    (model ≠ "nbeats" ∧ model = "esrnn" ∧
      _define_attributes_by_model model i o l = .ok (l, (0, 0))) ∨
    (model ≠ "nbeats" ∧ model ≠ "esrnn" ∧
      _define_attributes_by_model model i o l = .error .configurationError) := by
  unfold _define_attributes_by_model
  by_cases h1 : model = "nbeats"
  · exact Or.inl ⟨h1, by rw [if_pos h1]⟩
  · by_cases h2 : model = "esrnn"
    · exact Or.inr (Or.inl ⟨h1, h2, by rw [if_neg h1, if_pos h2]⟩)
    · exact Or.inr (Or.inr ⟨h1, h2, by rw [if_neg h1, if_neg h2]⟩)

/-- C6 amended: construction fails iff the model family is unknown, or a
supplied `len_sample_chunks` is below `input_size + output_size`, or the
resolved `n_series_per_batch` is zero (then the divisibility `assert` itself
dies with a `ZeroDivisionError`), or `batch_size` is not an exact multiple of
`n_series_per_batch`, or `n_series_per_batch` exceeds the series count;
otherwise construction succeeds. When the resolved `n_series_per_batch` is
non-zero the error is precisely the ConfigurationError of the four conditions
the claim lists. -/
theorem C6_construction_errors_amended (ds : TimeSeriesDataset) (cfg : LoaderConfig) :
    ((∃ e, mkTimeSeriesLoader ds cfg = .error e) ↔
      (cfg.model ≠ "nbeats" ∧ cfg.model ≠ "esrnn") ∨
      (∃ l, cfg.len_sample_chunks = some l ∧ l < cfg.input_size + cfg.output_size) ∨
      resolve_n_series_per_batch ds cfg = 0 ∨
      ¬ (resolve_n_series_per_batch ds cfg ∣ cfg.batch_size) ∨
      ds.n_series < resolve_n_series_per_batch ds cfg) ∧
    (resolve_n_series_per_batch ds cfg ≠ 0 →
      (mkTimeSeriesLoader ds cfg = .error .configurationError ↔
        (cfg.model ≠ "nbeats" ∧ cfg.model ≠ "esrnn") ∨
        (∃ l, cfg.len_sample_chunks = some l ∧ l < cfg.input_size + cfg.output_size) ∨
        ¬ (resolve_n_series_per_batch ds cfg ∣ cfg.batch_size) ∨
        ds.n_series < resolve_n_series_per_batch ds cfg)) := by
  rcases resolve_lsc_cases cfg with ⟨herr, hex⟩ | ⟨⟨lv, hlsc⟩, hnex⟩
  · have hmk : mkTimeSeriesLoader ds cfg = .error .configurationError := by
      unfold mkTimeSeriesLoader
      rw [herr]
    exact ⟨⟨fun _ => Or.inr (Or.inl hex), fun _ => ⟨_, hmk⟩⟩,
      fun _ => ⟨fun _ => Or.inr (Or.inl hex), fun _ => hmk⟩⟩
  · by_cases h0 : resolve_n_series_per_batch ds cfg = 0
    · have hmk : mkTimeSeriesLoader ds cfg = .error .zeroDivisionError := by
        unfold mkTimeSeriesLoader
        rw [hlsc]
        dsimp only
        rw [if_pos h0]
      exact ⟨⟨fun _ => Or.inr (Or.inr (Or.inl h0)), fun _ => ⟨_, hmk⟩⟩,
        fun hnpb => absurd h0 hnpb⟩
    · have hdvd_iff : resolve_n_series_per_batch ds cfg ∣ cfg.batch_size ↔
          cfg.batch_size % resolve_n_series_per_batch ds cfg = 0 :=
        Nat.dvd_iff_mod_eq_zero
      by_cases hmod : cfg.batch_size % resolve_n_series_per_batch ds cfg = 0
      · by_cases hlt : ds.n_series < resolve_n_series_per_batch ds cfg
        · have hmk : mkTimeSeriesLoader ds cfg = .error .configurationError := by
            unfold mkTimeSeriesLoader
            rw [hlsc]
            dsimp only
            rw [if_neg h0, if_neg (not_not_intro hmod), if_pos hlt]
          exact ⟨⟨fun _ => Or.inr (Or.inr (Or.inr (Or.inr hlt))), fun _ => ⟨_, hmk⟩⟩,
            fun _ => ⟨fun _ => Or.inr (Or.inr (Or.inr hlt)), fun _ => hmk⟩⟩
        · rcases define_attributes_cases cfg.model cfg.input_size cfg.output_size lv with
            ⟨hm, hdef⟩ | ⟨hm1, hm2, hdef⟩ | ⟨hm1, hm2, hdef⟩
          · have hmk : ∃ LL, mkTimeSeriesLoader ds cfg = .ok LL := by
              unfold mkTimeSeriesLoader
              rw [hlsc]
              dsimp only
              rw [if_neg h0, if_neg (not_not_intro hmod), if_neg hlt, hdef]
              exact ⟨_, rfl⟩
            obtain ⟨LL, hLL⟩ := hmk
            have hrhs : ¬ ((cfg.model ≠ "nbeats" ∧ cfg.model ≠ "esrnn") ∨
                (∃ l, cfg.len_sample_chunks = some l ∧
                  l < cfg.input_size + cfg.output_size) ∨
                resolve_n_series_per_batch ds cfg = 0 ∨
                ¬ (resolve_n_series_per_batch ds cfg ∣ cfg.batch_size) ∨
                ds.n_series < resolve_n_series_per_batch ds cfg) := by
              rintro (⟨ha, -⟩ | hex2 | h0bad | hdvd | hltbad)
              · exact ha hm
              · exact hnex hex2
              · exact h0 h0bad
              · exact hdvd (hdvd_iff.mpr hmod)
              · exact hlt hltbad
            refine ⟨⟨fun ⟨e, he⟩ => absurd (hLL ▸ he) (by simp), fun hr => absurd hr hrhs⟩,
              fun _ => ⟨fun hcon => absurd (hLL ▸ hcon) (by simp), fun hr => ?_⟩⟩
            rcases hr with ha | hb | hc2 | hd
            · exact absurd (Or.inl ha) hrhs
            · exact absurd (Or.inr (Or.inl hb)) hrhs
            · exact absurd (Or.inr (Or.inr (Or.inr (Or.inl hc2)))) hrhs
            · exact absurd (Or.inr (Or.inr (Or.inr (Or.inr hd)))) hrhs
          · have hmk : ∃ LL, mkTimeSeriesLoader ds cfg = .ok LL := by
              unfold mkTimeSeriesLoader
              rw [hlsc]
              dsimp only
              rw [if_neg h0, if_neg (not_not_intro hmod), if_neg hlt, hdef]
              exact ⟨_, rfl⟩
            obtain ⟨LL, hLL⟩ := hmk
            have hrhs : ¬ ((cfg.model ≠ "nbeats" ∧ cfg.model ≠ "esrnn") ∨
                (∃ l, cfg.len_sample_chunks = some l ∧
                  l < cfg.input_size + cfg.output_size) ∨
                resolve_n_series_per_batch ds cfg = 0 ∨
                ¬ (resolve_n_series_per_batch ds cfg ∣ cfg.batch_size) ∨
                ds.n_series < resolve_n_series_per_batch ds cfg) := by
              rintro (⟨-, hb⟩ | hex2 | h0bad | hdvd | hltbad)
              · exact hb hm2
              · exact hnex hex2
              · exact h0 h0bad
              · exact hdvd (hdvd_iff.mpr hmod)
              · exact hlt hltbad
            refine ⟨⟨fun ⟨e, he⟩ => absurd (hLL ▸ he) (by simp), fun hr => absurd hr hrhs⟩,
              fun _ => ⟨fun hcon => absurd (hLL ▸ hcon) (by simp), fun hr => ?_⟩⟩
            rcases hr with ha | hb | hc2 | hd
            · exact absurd (Or.inl ha) hrhs
            · exact absurd (Or.inr (Or.inl hb)) hrhs
            · exact absurd (Or.inr (Or.inr (Or.inr (Or.inl hc2)))) hrhs
            · exact absurd (Or.inr (Or.inr (Or.inr (Or.inr hd)))) hrhs
          · have hmk : mkTimeSeriesLoader ds cfg = .error .configurationError := by
              unfold mkTimeSeriesLoader
              rw [hlsc]
              dsimp only
              rw [if_neg h0, if_neg (not_not_intro hmod), if_neg hlt, hdef]
            exact ⟨⟨fun _ => Or.inl ⟨hm1, hm2⟩, fun _ => ⟨_, hmk⟩⟩,
              fun _ => ⟨fun _ => Or.inl ⟨hm1, hm2⟩, fun _ => hmk⟩⟩
      · have hmk : mkTimeSeriesLoader ds cfg = .error .configurationError := by
          unfold mkTimeSeriesLoader
          rw [hlsc]
          dsimp only
          rw [if_neg h0, if_pos hmod]
        have hnd : ¬ (resolve_n_series_per_batch ds cfg ∣ cfg.batch_size) :=
          fun hd => hmod (hdvd_iff.mp hd)
        exact ⟨⟨fun _ => Or.inr (Or.inr (Or.inr (Or.inl hnd))), fun _ => ⟨_, hmk⟩⟩,
          fun _ => ⟨fun _ => Or.inr (Or.inr (Or.inl hnd)), fun _ => hmk⟩⟩

/-- Counterexample for C6 as stated: with `batch_size = 0` and
`n_series_per_batch` unspecified, none of the four listed conditions holds
(`nbeats` is a known model, no `len_sample_chunks` is supplied, `batch_size` 0
is an exact multiple of the resolved `n_series_per_batch` 0, which does not
exceed the series count), so the claim demands successful construction — yet
the divisibility assertion evaluates `0 % 0` and construction fails, and not
with a ConfigurationError. -/
theorem C6_construction_errors_counterexample :
    mkTimeSeriesLoader ds0 cfgZero = .error .zeroDivisionError ∧
    mkTimeSeriesLoader ds0 cfgZero ≠ .error .configurationError ∧
    cfgZero.model = "nbeats" ∧
    cfgZero.len_sample_chunks = none ∧
    (resolve_n_series_per_batch ds0 cfgZero ∣ cfgZero.batch_size) ∧
    resolve_n_series_per_batch ds0 cfgZero ≤ ds0.n_series := by
  have h : mkTimeSeriesLoader ds0 cfgZero = .error .zeroDivisionError := rfl
  refine ⟨h, ?_, rfl, rfl, dvd_zero _, by decide⟩
  intro hc
  rw [h] at hc
  cases Except.error.inj hc

/-- Witness for C6 amended: an unknown model string fails with the
ConfigurationError. -/
theorem C6_construction_errors_amended_witness :
    mkTimeSeriesLoader ds0 cfgBadModel = .error .configurationError :=
  ((C6_construction_errors_amended ds0 cfgBadModel).2 (by decide)).mpr
    (Or.inl ⟨by decide, by decide⟩)

/-- C4: on a uniform selected-series tensor of `idx.length` series, `C`
channels and padded time length `Lp` (with `windows_size ≤ Lp` and a positive
stride), the windowing engine returns exactly `idx.length * k` windows where
`k = floor((Lp - windows_size) / idx_to_sample_freq) + 1`, flattened
series-major and time-minor: the window at flat position `i * k + j` is the
slice of series `i` starting at offset `j * idx_to_sample_freq`, every window
has shape `(C, windows_size)`, and the static row and series index of series
`i` are repeated `k` times so they align one-to-one with its windows. -/
theorem C4_windowing (L : TimeSeriesLoader) (idx : List Nat) (C Lp k : Nat)
    (hne : idx ≠ [])
    (hk : k = (Lp - L.windows_size) / L.idx_to_sample_freq + 1)
    (hcount : (padded_filtered_tensor L (some idx)).length = idx.length)
    (hC : 0 < C)
    (hunif : ∀ s ∈ padded_filtered_tensor L (some idx),
      s.length = C ∧ ∀ r ∈ s, r.length = Lp)
    (hW : L.windows_size ≤ Lp)
    (_hS : 0 < L.idx_to_sample_freq) :
    _create_windows_tensor L (some idx) =
      .ok (created_windows L idx, created_s_matrix L idx, created_ts_idxs L idx) ∧
    (created_windows L idx).length = idx.length * k ∧
    (created_s_matrix L idx).length = idx.length * k ∧
    (created_ts_idxs L idx).length = idx.length * k ∧
    (∀ i j, i < idx.length → j < k →
      (created_windows L idx).getD (i * k + j) [] =
        ((padded_filtered_tensor L (some idx)).getD i []).map
          (unfoldRow L.windows_size L.idx_to_sample_freq j) ∧
      (created_s_matrix L idx).getD (i * k + j) [] =
        L.ts_dataset.s_matrix.getD (idx.getD i 0) [] ∧
      (created_ts_idxs L idx).getD (i * k + j) 0 = idx.getD i 0) ∧
    (∀ win ∈ created_windows L idx,
      win.length = C ∧ ∀ r ∈ win, r.length = L.windows_size) := by
  have hn : 0 < idx.length := List.length_pos.mpr hne
  have hkseries : ∀ s ∈ padded_filtered_tensor L (some idx),
      (_series_windows L.windows_size L.idx_to_sample_freq s).length = k := by
    intro s hs
    obtain ⟨hsC, hrows⟩ := hunif s hs
    have htime : seriesTimeLen s = Lp := by
      unfold seriesTimeLen
      exact hrows _ (getD_mem_of_lt s (by omega) [])
    unfold _series_windows
    rw [List.length_map, List.length_range, htime, hk]
    rfl
  have hwlen : (created_windows L idx).length = idx.length * k := by
    unfold created_windows windows_flatten
    rw [length_flatMap_const _ k _ hkseries, hcount]
  have hwps : (created_windows L idx).length / idx.length = k := by
    rw [hwlen, Nat.mul_div_cancel_left k hn]
  have hwin_get : ∀ i j, i < idx.length → j < k →
      (created_windows L idx).getD (i * k + j) [] =
        ((padded_filtered_tensor L (some idx)).getD i []).map
          (unfoldRow L.windows_size L.idx_to_sample_freq j) := by
    intro i j hi hj
    have hmem : (padded_filtered_tensor L (some idx)).getD i [] ∈
        padded_filtered_tensor L (some idx) :=
      getD_mem_of_lt _ (by omega) []
    have hnum : seriesNumWindows L.windows_size L.idx_to_sample_freq
        (seriesTimeLen ((padded_filtered_tensor L (some idx)).getD i [])) = k := by
      have h2 := hkseries _ hmem
      unfold _series_windows at h2
      rw [List.length_map, List.length_range] at h2
      exact h2
    unfold created_windows windows_flatten
    rw [getD_flatMap_const (_series_windows L.windows_size L.idx_to_sample_freq) k [] []
      _ i j hkseries (by omega) hj]
    unfold _series_windows
    rw [hnum, getD_range_map _ hj []]
  have hs_get : ∀ i j, i < idx.length → j < k →
      (created_s_matrix L idx).getD (i * k + j) [] =
        L.ts_dataset.s_matrix.getD (idx.getD i 0) [] := by
    intro i j hi hj
    unfold created_s_matrix
    rw [hwps, getD_flatMap_const (List.replicate k) k [] []
      _ i j (fun a _ => by simp) (by rw [List.length_map]; omega) hj,
      getD_replicate_of_lt _ _ hj, getD_map_of_lt _ idx hi [] 0]
  have ht_get : ∀ i j, i < idx.length → j < k →
      (created_ts_idxs L idx).getD (i * k + j) 0 = idx.getD i 0 := by
    intro i j hi hj
    unfold created_ts_idxs
    rw [hwps, getD_flatMap_const (List.replicate k) k 0 0
      _ i j (fun a _ => by simp) (by omega) hj,
      getD_replicate_of_lt _ _ hj]
  have hshape : ∀ win ∈ created_windows L idx,
      win.length = C ∧ ∀ r ∈ win, r.length = L.windows_size := by
    intro win hwin
    unfold created_windows windows_flatten at hwin
    rw [List.mem_flatMap] at hwin
    obtain ⟨s, hs, hw2⟩ := hwin
    unfold _series_windows at hw2
    rw [List.mem_map] at hw2
    obtain ⟨j, hj, rfl⟩ := hw2
    rw [List.mem_range] at hj
    obtain ⟨hsC, hrows⟩ := hunif s hs
    have htime : seriesTimeLen s = Lp := by
      unfold seriesTimeLen
      exact hrows _ (getD_mem_of_lt s (by omega) [])
    rw [htime] at hj
    unfold seriesNumWindows at hj
    have hjk : j ≤ (Lp - L.windows_size) / L.idx_to_sample_freq := by omega
    have hmul : j * L.idx_to_sample_freq ≤ Lp - L.windows_size :=
      le_trans (Nat.mul_le_mul_right _ hjk) (Nat.div_mul_le_self _ _)
    constructor
    · rw [List.length_map]
      exact hsC
    · intro r hr
      rw [List.mem_map] at hr
      obtain ⟨row, hrow, rfl⟩ := hr
      unfold unfoldRow
      rw [List.length_take, List.length_drop, hrows row hrow]
      exact min_eq_left (by omega)
  refine ⟨create_windows_some_ok L idx hne, hwlen, ?_, ?_,
    fun i j hi hj => ⟨hwin_get i j hi hj, hs_get i j hi hj, ht_get i j hi hj⟩, hshape⟩
  · unfold created_s_matrix
    rw [hwps, length_flatMap_const _ k _ (fun a _ => by simp), List.length_map]
  · unfold created_ts_idxs
    rw [hwps, length_flatMap_const _ k _ (fun a _ => by simp)]

/-- Witness for C4: selecting series 0 and 1 of `ds0` under `L0`
(padded length 9, windows_size 3, stride 1, so k = 7) gives 14 windows; the
flat window at position `1 * 7 + 3` is the slice of series 1 at offset 3, with
its static row and series index aligned. -/
theorem C4_windowing_witness :
    _create_windows_tensor L0 (some [0, 1]) =
      .ok (created_windows L0 [0, 1], created_s_matrix L0 [0, 1],
        created_ts_idxs L0 [0, 1]) ∧
    (created_windows L0 [0, 1]).length = 2 * 7 ∧
    (created_windows L0 [0, 1]).getD (1 * 7 + 3) [] =
      [[20, 30, 40], [1, 1, 1], [1, 1, 1]] ∧
    (created_s_matrix L0 [0, 1]).getD (1 * 7 + 3) [] = [200] ∧
    (created_ts_idxs L0 [0, 1]).getD (1 * 7 + 3) 0 = 1 := by
  obtain ⟨h1, h2, -, -, h5, -⟩ :=
    C4_windowing L0 [0, 1] 3 9 7 (by decide) (by decide) (by decide) (by decide)
      (by decide) (by decide) (by decide)
  obtain ⟨hw, hs, ht⟩ := h5 1 3 (by decide) (by decide)
  exact ⟨h1, h2, hw.trans (by decide), hs.trans (by decide), ht.trans (by decide)⟩

end Nixtla
